import Mathlib

/-!
Verification of the class-string composition and property-forwarding core of
the `yew-and-bulma` component library, shallowly embedded from
`src/yew-and-bulma/src/layout/section.rs` and, for the parts of the library
whose sources are not available (the `ClassBuilder`, `Size`, `Color` and
`IS_PREFIX` utilities and the `Notification` component), modelled from the
specification's description of them.
-/

namespace YewBulma

/-- Modelled from the spec: the size style enumeration
(`utils::size::Size`, §3 "Style Variant": one of Small, Medium, Large, ...;
the real crate also has a Normal member between Small and Medium). -/
inductive Size where
  | Small
  | Normal
  | Medium
  | Large
deriving DecidableEq, Repr

/-- Modelled from the spec: the `Display` rendering of a size variant, the
canonical lowercase CSS suffix token (§4.2: `Size::Large → "large"`). -/
def Size.display : Size → String
  | .Small => "small"
  | .Normal => "normal"
  | .Medium => "medium"
  | .Large => "large"

/-- Modelled from the spec: the color style enumeration
(`helpers::color::Color`, §3: one of Primary, Link, Info, Success, Warning,
Danger, ...). -/
inductive Color where
  | Primary
  | Link
  | Info
  | Success
  | Warning
  | Danger
deriving DecidableEq, Repr

/-- Modelled from the spec: the `Display` rendering of a color variant, the
canonical lowercase CSS suffix token (§4.2: `Color::Primary → "primary"`). -/
def Color.display : Color → String
  | .Primary => "primary"
  | .Link => "link"
  | .Info => "info"
  | .Success => "success"
  | .Warning => "warning"
  | .Danger => "danger"

/-- Modelled from the spec: the `utils::constants::IS_PREFIX` constant, the
modifier-prefix convention `is-<variant>` of §6. -/
def isPfx : String := "is"

/-- Joining a list of class fragments with a single space separator between
consecutive fragments, as `build()` is described in §4.1. -/
def joinFrags : List String → String
  | [] => ""
  | [f] => f
  | f :: g :: rest => f ++ " " ++ joinFrags (g :: rest)

/-- Modelled from the spec: `utils::class::ClassBuilder` (§4.1), which
accumulates an ordered sequence of candidate class-name fragments. -/
structure ClassBuilder where
  fragments : List String
deriving DecidableEq, Repr

/-- Modelled from the spec: `ClassBuilder::default()`, the empty builder. -/
def ClassBuilder.default : ClassBuilder := ⟨[]⟩

/-- Modelled from the spec: `with_custom_class(fragment)` appends a fragment
to the builder's internal ordered sequence; any string is accepted, no
validation is performed (§4.1). -/
def ClassBuilder.with_custom_class (b : ClassBuilder) (fragment : String) : ClassBuilder :=
  ⟨b.fragments ++ [fragment]⟩

/-- Modelled from the spec: `build()` filters out empty fragments from the
accumulated sequence and joins the remainder with a single space separator
(§4.1). -/
def ClassBuilder.build (b : ClassBuilder) : String :=
  joinFrags (b.fragments.filter (fun f => f ≠ ""))

/-- Modelled from the spec: §4.1 "calling `build()` does not mutate the
builder": `build` as an explicit state transformer, returning the built
string together with the (unchanged) builder state. -/
def ClassBuilder.buildS (b : ClassBuilder) : String × ClassBuilder :=
  (b.build, b)

/-- The class string produced by passing a whole fragment sequence to a fresh
builder through `with_custom_class` and calling `build()`. -/
def buildOf (frags : List String) : String :=
  (List.foldl ClassBuilder.with_custom_class ClassBuilder.default frags).build

/-- Modelled from the spec: the Common Property Bundle's event-handler
fields (§3), one optional handler per supported DOM event name; the field
list is exactly the one forwarded by `section` in
`src/yew-and-bulma/src/layout/section.rs` lines 116-127. `H` is the host
framework's generic callback type. -/
structure EventHandlers (H : Type) where
  onclick : Option H
  onwheel : Option H
  onscroll : Option H
  onmousedown : Option H
  onmousemove : Option H
  onmouseout : Option H
  onmouseover : Option H
  onmouseup : Option H
  ondrag : Option H
  ondragend : Option H
  ondragenter : Option H
  ondragleave : Option H
  ondragover : Option H
  ondragstart : Option H
  ondrop : Option H
  oncopy : Option H
  oncut : Option H
  onpaste : Option H
  onkeydown : Option H
  onkeypress : Option H
  onkeyup : Option H
  onblur : Option H
  onchange : Option H
  oncontextmenu : Option H
  onfocus : Option H
  oninput : Option H
  oninvalid : Option H
  onreset : Option H
  onselect : Option H
  onsubmit : Option H
  onabort : Option H
  oncanplay : Option H
  oncanplaythrough : Option H
  oncuechange : Option H
  ondurationchange : Option H
  onemptied : Option H
  onended : Option H
  onerror : Option H
  onloadeddata : Option H
  onloadedmetadata : Option H
  onloadstart : Option H
  onpause : Option H
  onplay : Option H
  onplaying : Option H
  onprogress : Option H
  onratechange : Option H
  onseeked : Option H
  onseeking : Option H
  onstalled : Option H
  onsuspend : Option H
  ontimeupdate : Option H
  onvolumechange : Option H
  onwaiting : Option H
deriving DecidableEq

/-- The all-absent handler bundle: every optional event handler unset. -/
def EventHandlers.none (H : Type) : EventHandlers H :=
  ⟨.none, .none, .none, .none, .none, .none, .none, .none, .none, .none,
   .none, .none, .none, .none, .none, .none, .none, .none, .none, .none,
   .none, .none, .none, .none, .none, .none, .none, .none, .none, .none,
   .none, .none, .none, .none, .none, .none, .none, .none, .none, .none,
   .none, .none, .none, .none, .none, .none, .none, .none, .none, .none,
   .none, .none, .none⟩

/-- The `SectionProperties` struct of `section.rs`: the component-specific
`size` and `children` fields, together with the Common Property Bundle
fields (`id`, `class`, and the event handlers) injected by the
`base_component_properties` macro. The Rust `class` field is named
`className` here because `class` is a Lean keyword. `C` is the host
framework's child-node type. -/
structure SectionProps (H C : Type) where
  id : Option String
  className : Option String
  handlers : EventHandlers H
  size : Option Size
  children : List C
deriving DecidableEq

/-- The observable root element emitted by a component render: the `<div>`
of `section.rs` lines 114-130, with its `id`, built `class` string,
forwarded event handlers and children. -/
structure RootElement (H C : Type) where
  id : Option String
  className : String
  handlers : EventHandlers H
  children : List C
deriving DecidableEq

/-- The size fragment computed by `section` in `section.rs` lines 91-101:
`None` and any size other than `Medium` or `Large` contribute the empty
fragment; `Medium` and `Large` contribute `format!("{IS_PREFIX}-{size}")`. -/
def sectionSizeClass (size : Option Size) : String :=
  (size.map (fun s =>
    if s ≠ Size.Medium ∧ s ≠ Size.Large then ""
    else isPfx ++ "-" ++ s.display)).getD ""

/-- The class string computed by `section` in `section.rs` lines 102-112:
base class `"section"`, then the size fragment, then the caller's custom
class (empty when absent), assembled through `ClassBuilder`. -/
def sectionClass (size : Option Size) (cls : Option String) : String :=
  (((ClassBuilder.default.with_custom_class
      "section").with_custom_class
      (sectionSizeClass size)).with_custom_class
      ((cls.map (fun c => c)).getD "")).build

/-- The `section` render function of `section.rs` lines 90-131: emits one
root element carrying the built class string, the forwarded `id`, every
event handler cloned field by field, and the children in caller order. -/
def renderSection {H C : Type} (props : SectionProps H C) : RootElement H C :=
  { id := props.id
    className := sectionClass props.size props.className
    handlers :=
      { onclick := props.handlers.onclick
        onwheel := props.handlers.onwheel
        onscroll := props.handlers.onscroll
        onmousedown := props.handlers.onmousedown
        onmousemove := props.handlers.onmousemove
        onmouseout := props.handlers.onmouseout
        onmouseover := props.handlers.onmouseover
        onmouseup := props.handlers.onmouseup
        ondrag := props.handlers.ondrag
        ondragend := props.handlers.ondragend
        ondragenter := props.handlers.ondragenter
        ondragleave := props.handlers.ondragleave
        ondragover := props.handlers.ondragover
        ondragstart := props.handlers.ondragstart
        ondrop := props.handlers.ondrop
        oncopy := props.handlers.oncopy
        oncut := props.handlers.oncut
        onpaste := props.handlers.onpaste
        onkeydown := props.handlers.onkeydown
        onkeypress := props.handlers.onkeypress
        onkeyup := props.handlers.onkeyup
        onblur := props.handlers.onblur
        onchange := props.handlers.onchange
        oncontextmenu := props.handlers.oncontextmenu
        onfocus := props.handlers.onfocus
        oninput := props.handlers.oninput
        oninvalid := props.handlers.oninvalid
        onreset := props.handlers.onreset
        onselect := props.handlers.onselect
        onsubmit := props.handlers.onsubmit
        onabort := props.handlers.onabort
        oncanplay := props.handlers.oncanplay
        oncanplaythrough := props.handlers.oncanplaythrough
        oncuechange := props.handlers.oncuechange
        ondurationchange := props.handlers.ondurationchange
        onemptied := props.handlers.onemptied
        onended := props.handlers.onended
        onerror := props.handlers.onerror
        onloadeddata := props.handlers.onloadeddata
        onloadedmetadata := props.handlers.onloadedmetadata
        onloadstart := props.handlers.onloadstart
        onpause := props.handlers.onpause
        onplay := props.handlers.onplay
        onplaying := props.handlers.onplaying
        onprogress := props.handlers.onprogress
        onratechange := props.handlers.onratechange
        onseeked := props.handlers.onseeked
        onseeking := props.handlers.onseeking
        onstalled := props.handlers.onstalled
        onsuspend := props.handlers.onsuspend
        ontimeupdate := props.handlers.ontimeupdate
        onvolumechange := props.handlers.onvolumechange
        onwaiting := props.handlers.onwaiting }
    children := props.children }

/-- Modelled from the spec: the `Notification` component's configuration
(§6: `{color: optional Color variant, light: boolean default false}` plus
the common optional custom class). -/
structure NotificationProps where
  color : Option Color
  light : Bool
  className : Option String
deriving DecidableEq

/-- Modelled from the spec: the `Notification` component's class string —
base class `"notification"`, then the light modifier, then the color
modifier (§8 scenario: order base, light modifier, color modifier), then
the caller's custom class, assembled through `ClassBuilder`. -/
def notificationClass (p : NotificationProps) : String :=
  ((((ClassBuilder.default.with_custom_class
      "notification").with_custom_class
      (if p.light then isPfx ++ "-light" else "")).with_custom_class
      ((p.color.map (fun c => isPfx ++ "-" ++ c.display)).getD "")).with_custom_class
      ((p.className.map (fun c => c)).getD "")).build

/-- Character-level join of class-name tokens with a single space separator
between consecutive tokens, mirroring `joinFrags` on character lists. -/
def joinChars : List (List Char) → List Char
  | [] => []
  | [t] => t
  | t :: u :: rest => t ++ [' '] ++ joinChars (u :: rest)

/-- Helper for `tokenize`: returns the maximal space-free run at the front
of the character list together with the tokens that follow it. -/
def tokAux : List Char → List Char × List (List Char)
  | [] => ([], [])
  | c :: rest =>
    let p := tokAux rest
    if c = ' ' then ([], if p.1 = [] then p.2 else p.1 :: p.2)
    else (c :: p.1, p.2)

/-- Splits a character list into its maximal nonempty space-separated runs,
dropping every separator: the space-separated tokens of a class string. -/
def tokenize (l : List Char) : List (List Char) :=
  let p := tokAux l
  if p.1 = [] then p.2 else p.1 :: p.2

/-- The space-separated tokens of a class string. -/
def tokens (s : String) : List String :=
  (tokenize s.data).map String.mk

/-- A class string is well separated when it neither starts nor ends with
the space separator and contains no two consecutive spaces. -/
def wellSeparated (s : String) : Prop :=
  s.data.head? ≠ some ' ' ∧ s.data.getLast? ≠ some ' ' ∧
    List.Chain' (fun c d => ¬(c = ' ' ∧ d = ' ')) s.data

/-- Every Common Property Bundle field is forwarded unmodified by the
render: the root element's identifier, its children, and each one of the
53 event-handler fields equal the corresponding configuration field. -/
def forwardsCommon {H C : Type} (p : SectionProps H C) : Prop :=
  (renderSection p).id = p.id ∧
  (renderSection p).children = p.children ∧
  (renderSection p).handlers.onclick = p.handlers.onclick ∧
  (renderSection p).handlers.onwheel = p.handlers.onwheel ∧
  (renderSection p).handlers.onscroll = p.handlers.onscroll ∧
  (renderSection p).handlers.onmousedown = p.handlers.onmousedown ∧
  (renderSection p).handlers.onmousemove = p.handlers.onmousemove ∧
  (renderSection p).handlers.onmouseout = p.handlers.onmouseout ∧
  (renderSection p).handlers.onmouseover = p.handlers.onmouseover ∧
  (renderSection p).handlers.onmouseup = p.handlers.onmouseup ∧
  (renderSection p).handlers.ondrag = p.handlers.ondrag ∧
  (renderSection p).handlers.ondragend = p.handlers.ondragend ∧
  (renderSection p).handlers.ondragenter = p.handlers.ondragenter ∧
  (renderSection p).handlers.ondragleave = p.handlers.ondragleave ∧
  (renderSection p).handlers.ondragover = p.handlers.ondragover ∧
  (renderSection p).handlers.ondragstart = p.handlers.ondragstart ∧
  (renderSection p).handlers.ondrop = p.handlers.ondrop ∧
  (renderSection p).handlers.oncopy = p.handlers.oncopy ∧
  (renderSection p).handlers.oncut = p.handlers.oncut ∧
  (renderSection p).handlers.onpaste = p.handlers.onpaste ∧
  (renderSection p).handlers.onkeydown = p.handlers.onkeydown ∧
  (renderSection p).handlers.onkeypress = p.handlers.onkeypress ∧
  (renderSection p).handlers.onkeyup = p.handlers.onkeyup ∧
  (renderSection p).handlers.onblur = p.handlers.onblur ∧
  (renderSection p).handlers.onchange = p.handlers.onchange ∧
  (renderSection p).handlers.oncontextmenu = p.handlers.oncontextmenu ∧
  (renderSection p).handlers.onfocus = p.handlers.onfocus ∧
  (renderSection p).handlers.oninput = p.handlers.oninput ∧
  (renderSection p).handlers.oninvalid = p.handlers.oninvalid ∧
  (renderSection p).handlers.onreset = p.handlers.onreset ∧
  (renderSection p).handlers.onselect = p.handlers.onselect ∧
  (renderSection p).handlers.onsubmit = p.handlers.onsubmit ∧
  (renderSection p).handlers.onabort = p.handlers.onabort ∧
  (renderSection p).handlers.oncanplay = p.handlers.oncanplay ∧
  (renderSection p).handlers.oncanplaythrough = p.handlers.oncanplaythrough ∧
  (renderSection p).handlers.oncuechange = p.handlers.oncuechange ∧
  (renderSection p).handlers.ondurationchange = p.handlers.ondurationchange ∧
  (renderSection p).handlers.onemptied = p.handlers.onemptied ∧
  (renderSection p).handlers.onended = p.handlers.onended ∧
  (renderSection p).handlers.onerror = p.handlers.onerror ∧
  (renderSection p).handlers.onloadeddata = p.handlers.onloadeddata ∧
  (renderSection p).handlers.onloadedmetadata = p.handlers.onloadedmetadata ∧
  (renderSection p).handlers.onloadstart = p.handlers.onloadstart ∧
  (renderSection p).handlers.onpause = p.handlers.onpause ∧
  (renderSection p).handlers.onplay = p.handlers.onplay ∧
  (renderSection p).handlers.onplaying = p.handlers.onplaying ∧
  (renderSection p).handlers.onprogress = p.handlers.onprogress ∧
  (renderSection p).handlers.onratechange = p.handlers.onratechange ∧
  (renderSection p).handlers.onseeked = p.handlers.onseeked ∧
  (renderSection p).handlers.onseeking = p.handlers.onseeking ∧
  (renderSection p).handlers.onstalled = p.handlers.onstalled ∧
  (renderSection p).handlers.onsuspend = p.handlers.onsuspend ∧
  (renderSection p).handlers.ontimeupdate = p.handlers.ontimeupdate ∧
  (renderSection p).handlers.onvolumechange = p.handlers.onvolumechange ∧
  (renderSection p).handlers.onwaiting = p.handlers.onwaiting

/-- A section configuration with no optional field set: no size, no custom
class, no identifier, no event handler — only the mandatory children. -/
def emptyProps (H C : Type) (children : List C) : SectionProps H C :=
  { id := .none
    className := .none
    handlers := EventHandlers.none H
    size := .none
    children := children }

/-- A concrete section configuration (size Small, a custom class, an
identifier, one handler set) used to instantiate universally quantified
theorems at a specific input. -/
def sampleSmall : SectionProps Nat Nat :=
  { id := some "intro"
    className := some "my-extra"
    handlers := { EventHandlers.none Nat with onclick := some 1 }
    size := some Size.Small
    children := [7] }

/-- A variant of `sampleSmall` agreeing on `size` and custom class but
differing in its `onclick` handler. -/
def sampleSmall' : SectionProps Nat Nat :=
  { sampleSmall with handlers := { EventHandlers.none Nat with onclick := some 2 } }

/-- A concrete section configuration with size Medium. -/
def sampleMedium : SectionProps Nat Nat :=
  { sampleSmall with size := some Size.Medium }

theorem foldl_with_custom_class (frags : List String) (b : ClassBuilder) :
    (List.foldl ClassBuilder.with_custom_class b frags).fragments = b.fragments ++ frags := by
  induction frags generalizing b with
  | nil => simp
  | cons f rest ih => simp [List.foldl, ih, ClassBuilder.with_custom_class]

theorem buildOf_eq (frags : List String) :
    buildOf frags = joinFrags (frags.filter (fun f => f ≠ "")) := by
  simp [buildOf, ClassBuilder.build, foldl_with_custom_class, ClassBuilder.default]

theorem joinFrags_data : (l : List String) →
    (joinFrags l).data = joinChars (l.map String.data)
  | [] => rfl
  | [f] => rfl
  | f :: g :: rest => by
    have ih := joinFrags_data (g :: rest)
    show (f ++ " " ++ joinFrags (g :: rest)).data = _
    have hsp : (" " : String).data = [' '] := rfl
    simp [joinChars, String.data_append, hsp, ih]

theorem tokAux_of_no_space (t : List Char) (ht : ' ' ∉ t) (l : List Char) :
    tokAux (t ++ l) = (t ++ (tokAux l).1, (tokAux l).2) := by
  induction t with
  | nil => simp
  | cons c t ih =>
    have hc : c ≠ ' ' := fun h => ht (h ▸ List.mem_cons_self c t)
    have ht' : ' ' ∉ t := fun h => ht (List.mem_cons_of_mem c h)
    simp [tokAux, ih ht', hc]

theorem tokAux_space (l : List Char) : tokAux (' ' :: l) = ([], tokenize l) := rfl

theorem tokenize_joinChars : (ts : List (List Char)) →
    (∀ t ∈ ts, t ≠ [] ∧ ' ' ∉ t) → tokenize (joinChars ts) = ts
  | [], _ => rfl
  | [t], h => by
    have ht := h t (by simp)
    have haux := tokAux_of_no_space t ht.2 []
    simp only [List.append_nil] at haux
    simp [joinChars, tokenize, haux, tokAux, ht.1]
  | t :: u :: rest, h => by
    have ht := h t (by simp)
    have ih := tokenize_joinChars (u :: rest) (fun x hx => h x (by simp [hx]))
    show tokenize (t ++ [' '] ++ joinChars (u :: rest)) = t :: u :: rest
    rw [List.append_assoc]
    have haux := tokAux_of_no_space t ht.2 (' ' :: joinChars (u :: rest))
    rw [tokAux_space, ih] at haux
    simp [tokenize, haux, ht.1]

theorem joinChars_ne_nil (t : List Char) (rest : List (List Char)) (ht : t ≠ []) :
    joinChars (t :: rest) ≠ [] := by
  cases rest with
  | nil => simpa [joinChars] using ht
  | cons u rest => simp [joinChars]

theorem joinChars_head? (t : List Char) (rest : List (List Char)) (ht : t ≠ []) :
    (joinChars (t :: rest)).head? = t.head? := by
  cases rest with
  | nil => rfl
  | cons u rest =>
    cases t with
    | nil => exact absurd rfl ht
    | cons c t => rfl

theorem chain'_of_no_space (t : List Char) (ht : ' ' ∉ t) :
    List.Chain' (fun c d => ¬(c = ' ' ∧ d = ' ')) t := by
  induction t with
  | nil => simp
  | cons c t ih =>
    have hc : c ≠ ' ' := fun h => ht (h ▸ List.mem_cons_self c t)
    rw [List.chain'_cons']
    exact ⟨fun y _ hcd => hc hcd.1, ih (fun h => ht (List.mem_cons_of_mem c h))⟩

theorem joinChars_wellSep : (ts : List (List Char)) →
    (∀ t ∈ ts, t ≠ [] ∧ ' ' ∉ t) →
    (joinChars ts).head? ≠ some ' ' ∧ (joinChars ts).getLast? ≠ some ' ' ∧
      List.Chain' (fun c d => ¬(c = ' ' ∧ d = ' ')) (joinChars ts)
  | [], _ => by simp [joinChars]
  | [t], h => by
    have ht := h t (by simp)
    refine ⟨fun hx => ht.2 ?_, fun hx => ht.2 ?_, chain'_of_no_space t ht.2⟩
    · exact List.mem_of_mem_head? (by simpa [joinChars] using hx)
    · exact List.mem_of_mem_getLast? (by simpa [joinChars] using hx)
  | t :: u :: rest, h => by
    have ht := h t (by simp)
    have ih := joinChars_wellSep (u :: rest) (fun x hx => h x (by simp [hx]))
    have hne := joinChars_ne_nil u rest (h u (by simp)).1
    have hj : joinChars (t :: u :: rest) = t ++ (' ' :: joinChars (u :: rest)) := by
      show t ++ [' '] ++ joinChars (u :: rest) = _
      rw [List.append_assoc]
      rfl
    refine ⟨?_, ?_, ?_⟩
    · rw [hj, List.head?_append_of_ne_nil t ht.1]
      intro hx
      exact ht.2 (List.mem_of_mem_head? hx)
    · rw [hj, List.getLast?_append_of_ne_nil _ (by simp),
        show (' ' :: joinChars (u :: rest)) = [' '] ++ joinChars (u :: rest) from rfl,
        List.getLast?_append_of_ne_nil _ hne]
      exact ih.2.1
    · rw [hj]
      apply List.chain'_append.2
      refine ⟨chain'_of_no_space t ht.2, ?_, ?_⟩
      · rw [List.chain'_cons']
        refine ⟨fun y hy hcd => ?_, ih.2.2⟩
        exact ih.1 (hcd.2 ▸ hy)
      · intro x hx y hy hcd
        cases hy
        exact ht.2 (hcd.1 ▸ List.mem_of_mem_getLast? hx)

theorem filtered_tokens_good (frags : List String) (hs : ∀ f ∈ frags, ' ' ∉ f.data) :
    ∀ t ∈ (frags.filter (fun f => f ≠ "")).map String.data, t ≠ [] ∧ ' ' ∉ t := by
  intro t ht
  rcases List.mem_map.1 ht with ⟨f, hf, rfl⟩
  rcases List.mem_filter.1 hf with ⟨hmem, hne⟩
  have hne' : f ≠ "" := by simpa using hne
  refine ⟨fun hd => hne' (String.ext hd), hs f hmem⟩

theorem tokens_buildOf (frags : List String) (hs : ∀ f ∈ frags, ' ' ∉ f.data) :
    tokens (buildOf frags) = frags.filter (fun f => f ≠ "") := by
  rw [tokens, buildOf_eq, joinFrags_data,
    tokenize_joinChars _ (filtered_tokens_good frags hs), List.map_map]
  rw [show String.mk ∘ String.data = id from funext (fun f => rfl), List.map_id]

theorem sectionClass_fragments (size : Option Size) (cls : Option String) :
    sectionClass size cls =
      joinFrags ((["section", sectionSizeClass size,
        (cls.map (fun c => c)).getD ""]).filter (fun f => f ≠ "")) := rfl

theorem filter_cons_ne (c : String) (l : List String) (hc : c ≠ "") :
    (c :: l).filter (fun f => f ≠ "") = c :: l.filter (fun f => f ≠ "") := by
  simp [List.filter_cons, hc]

/-- C1: for every Section configuration whose size is `Some v` with `v`
neither `Medium` nor `Large`, the size contributes an empty fragment and the
rendered class string equals exactly `"section"`, followed by the caller's
custom class when a nonempty one is supplied; `renderSection` is a total
function, so no error is raised and no signal is surfaced to the caller. -/
theorem c1_section_inapplicable_size {H C : Type} (p : SectionProps H C) (v : Size)
    (hsz : p.size = some v) (hm : v ≠ Size.Medium) (hl : v ≠ Size.Large) :
    sectionSizeClass p.size = "" ∧
    (renderSection p).className =
      (match p.className with
       | .none => "section"
       | some c => if c = "" then "section" else "section" ++ " " ++ c) := by
  have hfrag : sectionSizeClass p.size = "" := by
    rw [hsz]
    simp [sectionSizeClass, hm, hl]
  refine ⟨hfrag, ?_⟩
  show sectionClass p.size p.className = _
  rw [sectionClass_fragments, hfrag]
  match p.className with
  | .none => rfl
  | some c =>
    by_cases hc : c = ""
    · subst hc
      rfl
    · show joinFrags (("section" :: "" :: [c]).filter (fun f => f ≠ "")) = _
      rw [filter_cons_ne "section" _ (by decide)]
      show joinFrags ("section" :: ([c].filter (fun f => f ≠ ""))) = _
      rw [filter_cons_ne c [] hc]
      show "section" ++ " " ++ c = if c = "" then "section" else "section" ++ " " ++ c
      rw [if_neg hc]

/-- C1 witness: the theorem instantiated at a concrete configuration with
size Small and custom class "my-extra". -/
theorem c1_witness :
    sectionSizeClass sampleSmall.size = "" ∧
    (renderSection sampleSmall).className =
      (match sampleSmall.className with
       | .none => "section"
       | some c => if c = "" then "section" else "section" ++ " " ++ c) :=
  c1_section_inapplicable_size sampleSmall Size.Small rfl (by decide) (by decide)

/-- C2: for every sequence of class-name fragments (space-free tokens, per
the glossary) passed to `ClassBuilder` via `with_custom_class`, the string
returned by `build()` contains no two consecutive space separators and no
leading or trailing separator, and if every fragment is empty then
`build()` returns the empty string. -/
theorem c2_build_well_separated (frags : List String)
    (hs : ∀ f ∈ frags, ' ' ∉ f.data) :
    wellSeparated (buildOf frags) ∧
      ((∀ f ∈ frags, f = "") → buildOf frags = "") := by
  constructor
  · have hw := joinChars_wellSep _ (filtered_tokens_good frags hs)
    rw [wellSeparated, buildOf_eq, joinFrags_data]
    exact hw
  · intro hall
    have hnil : frags.filter (fun f => f ≠ "") = [] :=
      List.filter_eq_nil_iff.2 (fun f hf => by simp [hall f hf])
    rw [buildOf_eq, hnil]
    rfl

/-- C2 witness: the theorem instantiated at the fragment sequence of the
spec's §8 scenario, `["section", "", "is-large", "my-extra"]`. -/
theorem c2_witness :
    wellSeparated (buildOf ["section", "", "is-large", "my-extra"]) ∧
      ((∀ f ∈ (["section", "", "is-large", "my-extra"] : List String), f = "") →
        buildOf ["section", "", "is-large", "my-extra"] = "") :=
  c2_build_well_separated ["section", "", "is-large", "my-extra"] (by decide)

/-- C3: for every fragment sequence with at least one non-empty fragment,
duplicates are not deduplicated: the number of space-separated tokens in
the `build()` output equals the number of non-empty input fragments. -/
theorem c3_token_count (frags : List String)
    (_hne : ∃ f ∈ frags, f ≠ "") (hs : ∀ f ∈ frags, ' ' ∉ f.data) :
    (tokens (buildOf frags)).length = (frags.filter (fun f => f ≠ "")).length := by
  rw [tokens_buildOf frags hs]

/-- C3 witness: the theorem instantiated at `["section", "", "is-large"]`,
whose build output has exactly two tokens. -/
theorem c3_witness :
    (tokens (buildOf ["section", "", "is-large"])).length =
      ((["section", "", "is-large"] : List String).filter (fun f => f ≠ "")).length :=
  c3_token_count ["section", "", "is-large"] (by decide) (by decide)

/-- C4 counterexample: the fragment sequence `["a", "a"]` yields the build
output `"a a"`, in which the distinct non-empty fragment `"a"` appears
twice among the space-separated tokens, so `ClassBuilder` does not filter
duplicate fragments. -/
theorem c4_counterexample :
    buildOf ["a", "a"] = "a a" ∧ ¬ ((tokens (buildOf ["a", "a"])).count "a" ≤ 1) := by
  constructor
  · rfl
  · decide

/-- C4 (amended): `ClassBuilder` does not filter duplicate fragments: the
space-separated tokens of the `build()` output are exactly the non-empty
input fragments in supplied order, so a fragment supplied several times
appears that many times. -/
theorem c4_amended_no_dedup (frags : List String)
    (hs : ∀ f ∈ frags, ' ' ∉ f.data) :
    tokens (buildOf frags) = frags.filter (fun f => f ≠ "") :=
  tokens_buildOf frags hs

/-- C4 witness: the amended theorem instantiated at `["a", "", "a"]`. -/
theorem c4_witness :
    tokens (buildOf ["a", "", "a"]) =
      (["a", "", "a"] : List String).filter (fun f => f ≠ "") :=
  c4_amended_no_dedup ["a", "", "a"] (by decide)

/-- C5: `build()` is idempotent with respect to the builder's state: as a
state transformer it returns the builder unchanged, and calling it twice
with no intervening `with_custom_class` yields identical strings. -/
theorem c5_build_idempotent (b : ClassBuilder) :
    (b.buildS).2 = b ∧ (((b.buildS).2).buildS).1 = (b.buildS).1 :=
  ⟨rfl, rfl⟩

/-- C6: a Notification configured with color Primary, light true and no
custom class renders the class string `"notification is-light is-primary"`,
token order: base class, light modifier, color modifier. -/
theorem c6_notification_primary_light :
    notificationClass { color := some Color.Primary, light := true, className := .none }
      = "notification is-light is-primary" := rfl

/-- C7: a Section configured with no optional field set renders a class
string equal to exactly the base class `"section"`, forwards no identifier,
and every event-handler attribute on the rendered root element is absent. -/
theorem c7_no_optionals (H C : Type) (children : List C) :
    (renderSection (emptyProps H C children)).className = "section" ∧
    (renderSection (emptyProps H C children)).id = .none ∧
    (renderSection (emptyProps H C children)).handlers = EventHandlers.none H ∧
    (renderSection (emptyProps H C children)).children = children :=
  ⟨rfl, rfl, rfl, rfl⟩

/-- C8: every render forwards the identifier, the children and all 53 event
handlers of the Common Property Bundle unconditionally and unmodified, and
the class-string computation reads only the `size` and custom-class
fields: two configurations agreeing on those two fields render the same
class string. -/
theorem c8_forwarding_and_frame (H C : Type) :
    (∀ p : SectionProps H C, forwardsCommon p) ∧
    (∀ p q : SectionProps H C, p.size = q.size → p.className = q.className →
      (renderSection p).className = (renderSection q).className) := by
  constructor
  · intro p
    refine ⟨rfl, rfl, rfl, rfl, rfl, rfl, rfl, rfl, rfl, rfl, rfl, rfl, rfl, rfl,
      rfl, rfl, rfl, rfl, rfl, rfl, rfl, rfl, rfl, rfl, rfl, rfl, rfl, rfl,
      rfl, rfl, rfl, rfl, rfl, rfl, rfl, rfl, rfl, rfl, rfl, rfl, rfl, rfl,
      rfl, rfl, rfl, rfl, rfl, rfl, rfl, rfl, rfl, rfl, rfl, rfl, rfl⟩
  · intro p q hsz hcl
    show sectionClass p.size p.className = sectionClass q.size q.className
    rw [hsz, hcl]

/-- C8 witness: the frame part of the theorem instantiated at two concrete
configurations agreeing on size and custom class but differing in their
`onclick` handler. -/
theorem c8_witness :
    (renderSection sampleSmall).className = (renderSection sampleSmall').className :=
  (c8_forwarding_and_frame Nat Nat).2 sampleSmall sampleSmall' rfl rfl

/-- C9: for a Section whose size is `Some Medium` or `Some Large`, the size
fragment is the IS_PREFIX-joined token `"is-medium"` or `"is-large"`, and
the rendered class string is `"section is-medium"` or `"section is-large"`
respectively, followed by the custom class when a nonempty one is
supplied. -/
theorem c9_section_medium_large {H C : Type} (p : SectionProps H C) (v : Size)
    (hsz : p.size = some v) (hv : v = Size.Medium ∨ v = Size.Large) :
    sectionSizeClass p.size = (if v = Size.Medium then "is-medium" else "is-large") ∧
    (renderSection p).className =
      (match p.className with
       | .none => if v = Size.Medium then "section is-medium" else "section is-large"
       | some c =>
         if c = "" then (if v = Size.Medium then "section is-medium" else "section is-large")
         else (if v = Size.Medium then "section is-medium" else "section is-large") ++ " " ++ c) := by
  rcases hv with rfl | rfl
  · have hfrag : sectionSizeClass p.size = "is-medium" := by
      rw [hsz]
      rfl
    refine ⟨hfrag, ?_⟩
    show sectionClass p.size p.className = _
    rw [sectionClass_fragments, hfrag]
    match p.className with
    | .none => rfl
    | some c =>
      by_cases hc : c = ""
      · subst hc
        rfl
      · show joinFrags (("section" :: "is-medium" :: [c]).filter (fun f => f ≠ "")) = _
        rw [filter_cons_ne "section" _ (by decide)]
        show joinFrags ("section" :: (("is-medium" :: [c]).filter (fun f => f ≠ ""))) = _
        rw [filter_cons_ne "is-medium" _ (by decide), filter_cons_ne c [] hc]
        show "section" ++ " " ++ ("is-medium" ++ " " ++ c) =
          if c = "" then "section is-medium" else "section is-medium" ++ " " ++ c
        rw [if_neg hc]
        rfl
  · have hfrag : sectionSizeClass p.size = "is-large" := by
      rw [hsz]
      rfl
    refine ⟨hfrag, ?_⟩
    show sectionClass p.size p.className = _
    rw [sectionClass_fragments, hfrag]
    match p.className with
    | .none => rfl
    | some c =>
      by_cases hc : c = ""
      · subst hc
        rfl
      · show joinFrags (("section" :: "is-large" :: [c]).filter (fun f => f ≠ "")) = _
        rw [filter_cons_ne "section" _ (by decide)]
        show joinFrags ("section" :: (("is-large" :: [c]).filter (fun f => f ≠ ""))) = _
        rw [filter_cons_ne "is-large" _ (by decide), filter_cons_ne c [] hc]
        show "section" ++ " " ++ ("is-large" ++ " " ++ c) =
          if c = "" then "section is-large" else "section is-large" ++ " " ++ c
        rw [if_neg hc]
        rfl

/-- C9 witness: the theorem instantiated at a concrete configuration with
size Medium and custom class "my-extra". -/
theorem c9_witness :
    sectionSizeClass sampleMedium.size =
      (if Size.Medium = Size.Medium then "is-medium" else "is-large") ∧
    (renderSection sampleMedium).className =
      (match sampleMedium.className with
       | .none => if Size.Medium = Size.Medium then "section is-medium" else "section is-large"
       | some c =>
         if c = "" then
           (if Size.Medium = Size.Medium then "section is-medium" else "section is-large")
         else
           (if Size.Medium = Size.Medium then "section is-medium" else "section is-large")
             ++ " " ++ c) :=
  c9_section_medium_large sampleMedium Size.Medium rfl (Or.inl rfl)

/-- C10: the Section render function is a pure, stateless, deterministic
transformation: equal property values produce identical root elements, and
the children are emitted in the order supplied by the caller. -/
theorem c10_render_pure {H C : Type} (p q : SectionProps H C) (h : p = q) :
    renderSection p = renderSection q ∧ (renderSection p).children = p.children :=
  ⟨h ▸ rfl, rfl⟩

/-- C10 witness: the theorem instantiated at a concrete configuration. -/
theorem c10_witness :
    renderSection sampleSmall = renderSection sampleSmall ∧
      (renderSection sampleSmall).children = sampleSmall.children :=
  c10_render_pure sampleSmall sampleSmall rfl

end YewBulma
